import Mathlib

/-!
Verification of the maestro interactive session controller (`pkg/tui/model.go`).

This file gives a shallow embedding of the controller's event-loop handler
`Update`, its initializer `NewWithCache` / `isFirstRun`, and the helper
functions they call, and proves properties of the embedding.

Conventions of the embedding:
* The bubbletea `tea.Msg` union is embedded as the inductive `Msg`, covering
  every message kind handled by `Update` except `saveSettingsMsg` and
  `saveFirewallMsg` (pure config-store writes with no effect on the fields any
  claim mentions).
* A `tea.Cmd` is embedded as a `Task`; `tea.Batch` becomes list concatenation,
  in source order.  The alert/toast subsystem's internal lifecycle command
  (`alertCmd`, batched into every return) carries no information and is
  dropped; an explicit toast (`alert.NewAlertCmd`) is kept as `Task.toast`.
* All reads of the outside world that happen *inside* the handler
  (`time.Now()` in `updateStatusBar`, `os.Stat` / config writes in the wizard
  branches, the synchronous `GetContainerDetails` call in the `i` key handler,
  the `viper` flags read by `isFirstRun`) are passed in explicitly through an
  environment record `Env`, so the embedding is a total function
  `Update : Model → Msg → Env → Model × List Task`.
* Purely visual data (lipgloss styles/colors, spinner glyphs, viewport sizing)
  is abstracted away; the *text* the controller stores in its state (statusbar
  content, modal titles/contents, toasts) is kept.
* Go `int` fields that claims quantify over (`wizardStep`, cursor positions)
  are embedded as `Int`.
-/

/-- Go `container.Info`: one entry of the container list.  The controller only
reads `Name` and `ShortName`; the remaining display fields are irrelevant to
every claim and are omitted. -/
structure Info where
  name : String
  shortName : String
deriving DecidableEq, Repr

/-- Go `container.OperationType`: the four lifecycle operations. -/
inductive OperationType where
  | stop
  | restart
  | delete
  | refreshTokens
deriving DecidableEq, Repr

/-- Modelled from the spec: the string value of a `container.OperationType`
constant (the `container` package is not part of the sources; §6 names the
operations Stop/Restart/Delete/RefreshTokens). -/
def OperationType.str : OperationType → String
  | .stop => "stop"
  | .restart => "restart"
  | .delete => "delete"
  | .refreshTokens => "refresh-tokens"

/-- The terminal result kinds of `TUIResult` (quit / connect / create /
run-external-auth), per the caller-boundary contract. -/
inductive TUIAction where
  | quit
  | connect
  | create
  | runAuth
deriving DecidableEq, Repr

/-- Go `TUIResult`: the terminal value handed back to the caller. -/
structure TUIResult where
  action : TUIAction
  containerName : String := ""
  taskDescription : String := ""
  branchName : String := ""
  noConnect : Bool := false
  exact : Bool := false
deriving DecidableEq, Repr

/-- The message union consumed by `Update` (each constructor is one of the
`tea.Msg` types the source switches on). -/
inductive Msg where
  | tick
  | wizAnimTick
  | refreshTickMsg
  | exitWizard
  | wizardNextStep
  | wizardPrevStep
  | updateWizardConfig (memory cpus : String)
  | prereqResult (claudeAvailable : Bool) (claudeMessage : String)
      (dockerAvailable : Bool) (dockerMessage : String)
  | saveWizardCfg (memory cpus : String) (domains : List String) (runAuthNow : Bool)
  | windowSize (width height : Int)
  | spinnerTick
  | containersLoaded (containers : List Info)
  | connectRequest (containerName : String)
  | showActionsMenu (c : Info)
  | createContainer (taskDescription branchName : String) (noConnect exact : Bool)
  | containerAction (action : OperationType) (containerName : String)
  | confirmAction (action : OperationType) (containerName : String)
  | dockerOpResult (action : OperationType) (containerName : String)
      (success : Bool) (err : String)
  | key (k : String)
deriving DecidableEq, Repr

/-- A scheduled asynchronous operation (`tea.Cmd`).  `emit m` is a command
that immediately delivers the message `m` (the shape of every modal-action
callback); `quit` is `tea.Quit`. -/
inductive Cmd where
  | animationTick
  | wizAnimationTick
  | refreshTick
  | spinnerTick
  | opSpinnerTick
  | loadContainers
  | checkPrereqs
  | performOperation (action : OperationType) (containerName : String)
  | toast (kind text : String)
  | emit (m : Msg)
  | quit
deriving DecidableEq, Repr

/-- Go `ModalType`: the tagged modal variants used in `model.go`. -/
inductive ModalType where
  | info
  | confirm
  | form
  | actions
deriving DecidableEq, Repr

/-- Go `ModalAction`: label, trigger key, primary flag, and the message the
`OnSelect` callback returns (`none` when the callback is nil or reads modal
form state, which is outside the modeled scope). -/
structure ModalAction where
  label : String
  key : String
  isPrimary : Bool
  onSelect : Option Msg := none
deriving DecidableEq, Repr

/-- Go `Modal`: the overlay dialog.  Form internals (textinputs, checkboxes,
viewport) are outside the modeled scope; `selected` is the Go
`SelectedAction` index. -/
structure Modal where
  type : ModalType
  title : String
  content : String
  width : Int
  disableEsc : Bool := false
  actions : List ModalAction := []
  selected : Nat := 0
deriving DecidableEq, Repr

/-- Modelled from the spec: `views.HomeModel` (the `views` package is not in
the sources).  §3: a Session is the ordered container list plus an integer
cursor, −1 meaning none. -/
structure HomeModel where
  containers : List Info
  cursor : Int
deriving DecidableEq, Repr

/-- Modelled from the spec: `views.NewHomeModel` — a fresh home view over a
list; the cursor starts at the valid default (0, or −1 when the list is
empty), per §3 and Scenario A. -/
def NewHomeModel (containers : List Info) : HomeModel :=
  { containers := containers, cursor := if containers.isEmpty then -1 else 0 }

/-- Setter `HomeModel.SetCursor` (setter used by `Update` for cursor restoration). -/
def HomeModel.SetCursor (hv : HomeModel) (i : Int) : HomeModel :=
  { hv with cursor := i }

/-- The four text columns held by the statusbar component
(`statusbar.SetContent`); styling is abstracted, text is kept. -/
structure StatusBarContent where
  col1 : String
  col2 : String
  col3 : String
  col4 : String
deriving DecidableEq, Repr

/-- Go `Model`: the controller's application state (the fields of the Go `Model`
struct that carry state; embedded UI component models — help, key bindings,
spinners, the alert model — hold no controller state and are omitted). -/
structure Model where
  width : Int := 0
  height : Int := 0
  ready : Bool := false
  result : Option TUIResult := none
  homeView : Option HomeModel := none
  modal : Option Modal := none
  cachedCursorPos : Int := 0
  loading : Bool := false
  statusbar : StatusBarContent := ⟨"", "", "", ""⟩
  containerCount : Nat := 0
  operationStatus : String := ""
  daemonRunning : Bool := false
  workingDir : String := ""
  animationFrame : Nat := 0
  operationInProgress : Bool := false
  wizardMode : Bool := false
  wizardStep : Int := 0
  animationColumn : Int := 0
  animationComplete : Bool := false
  wizardMemory : String := ""
  wizardCPUs : String := ""
  wizardDomains : List String := []
  wizardRunAuthNow : Bool := false
deriving DecidableEq, Repr

/-- The external world as read synchronously by the controller: viper flags
and config-file state (for `isFirstRun` and the wizard save paths), the clock
(for `updateStatusBar`), the filesystem results of the synchronous calls made
inside `Update`, and the result the container registry will hand to the next
enumeration task. -/
structure Env where
  wizardAlwaysRun : Bool := false
  resumeAfterAuth : Bool := false
  configFileExists : Bool := true
  bedrockEnabled : Bool := false
  authPathSetting : String := ""
  authDir : String := "/home/u/.maestro/.claude"
  userHomeDir : Option String := some "/home/u"
  credsFileExistsAt : String → Bool := fun _ => true
  timeHHMM : String := "12:00"
  saveConfigResult : Option String := none
  detailsResult : Except String String := .ok ""
  listContainers : Except String (List Info) := .ok []
  memorySetting : String := ""
  cpusSetting : String := ""
  firewallDomains : List String := []
  workingDirRel : String := "~"


/-- Path concatenation standing in for Go `filepath.Join`; the lexical
cleaning Join performs is irrelevant here because file existence is supplied
by the environment per path. -/
def joinPath (a b : String) : String := a ++ "/" ++ b

/-- Embedding of `isFirstRun` (model.go:122): wizard forced by
`wizard.always_run` or `wizard.resume_after_auth`; first run when the config
file is missing; the credential check is skipped when `bedrock.enabled`;
otherwise first run exactly when the resolved `.credentials.json` is
missing (unresolvable home directory means "skip wizard"). -/
def isFirstRun (e : Env) : Bool :=
  if e.wizardAlwaysRun then true
  else if e.resumeAfterAuth then true
  else if !e.configFileExists then true
  else if e.bedrockEnabled then false
  else
    let credPath := if e.authPathSetting == "" then e.authDir else e.authPathSetting
    if credPath.startsWith "~" then
      match e.userHomeDir with
      | none => false
      | some home =>
          !e.credsFileExistsAt (joinPath (joinPath home ((credPath.drop 1))) ".credentials.json")
    else
      !e.credsFileExistsAt (joinPath credPath ".credentials.json")

/-- Default firewall domain list used by the wizard when the config has none
(model.go:331). -/
def defaultWizardDomains : List String :=
  ["registry.npmjs.org", "api.anthropic.com", "github.com", "pypi.org",
   "files.pythonhosted.org", "sentry.io", "statsig.anthropic.com", "statsig.com"]

/-- Cached snapshot handed back in by the caller for instant redraw. -/
structure CachedState where
  containers : List Info
  cursorPos : Int
deriving DecidableEq, Repr

/-- Embedding of `NewWithCache` (model.go:167): construct the initial model,
entering wizard mode when `isFirstRun` holds (jumping to step 3 with the
animation marked complete when resuming after auth), otherwise seeding the
home view from the cache when one is present. -/
def NewWithCache (cached : Option CachedState) (e : Env) : Model :=
  let base : Model :=
    { loading := match cached with | none => true | some c => c.containers.isEmpty,
      operationStatus := "Ready",
      daemonRunning := true,
      workingDir := e.workingDirRel,
      animationFrame := 0,
      operationInProgress := false }
  if isFirstRun e then
    let m := { base with wizardMode := true, loading := false }
    let m :=
      if e.resumeAfterAuth then
        { m with wizardStep := 3, animationColumn := 0, animationComplete := true,
                 modal := none }
      else
        { m with wizardStep := 0, animationColumn := 0, animationComplete := false }
    { m with
      wizardMemory := if e.memorySetting == "" then "4g" else e.memorySetting,
      wizardCPUs := if e.cpusSetting == "" then "2" else e.cpusSetting,
      wizardDomains :=
        if e.firewallDomains.isEmpty then defaultWizardDomains else e.firewallDomains,
      wizardRunAuthNow := false }
  else
    match cached with
    | some c =>
        if !c.containers.isEmpty then
          { base with homeView := some (NewHomeModel c.containers), ready := true,
                      cachedCursorPos := c.cursorPos }
        else { base with cachedCursorPos := -1 }
    | none => { base with cachedCursorPos := -1 }

/-- Embedding of `Init` (model.go:361): the commands scheduled on start
(alert lifecycle init abstracted). -/
def Init (m : Model) : List Cmd :=
  if m.wizardMode then
    if m.animationComplete then [] else [.wizAnimationTick]
  else
    [Cmd.loadContainers] ++ (if m.loading then [Cmd.spinnerTick] else [])
      ++ [Cmd.animationTick, Cmd.refreshTick]

/-- Embedding of `updateStatusBar` (model.go:2154).  Text content of the four
columns is kept; lipgloss colors, the animated daemon-shade index, and the
operation-spinner glyph are purely visual and abstracted.  Column 4 reads the
wall clock (`time.Now().Format("15:04")`), supplied as `e.timeHHMM`. -/
def updateStatusBar (m : Model) (e : Env) : Model :=
  let daemonIndicator := if m.daemonRunning then "●" else "○"
  let containerText :=
    if m.containerCount == 1 then "1 container"
    else toString m.containerCount ++ " containers"
  let col1 := daemonIndicator ++ " " ++ containerText
  let pathText := m.workingDir
  let col2 :=
    if pathText.length > 40 then
      pathText.take 15 ++ "..." ++ pathText.takeRight 22
    else pathText
  let col3 := m.operationStatus
  let modeIndicator := if m.modal.isSome then "◆" else "●"
  let col4 := e.timeHHMM ++ " " ++ modeIndicator
  { m with statusbar := ⟨col1, col2, col3, col4⟩ }

/-- Modelled from the spec: `NewErrorModal` (constructor not in the sources).
§7: a blocking error modal carrying the title and the verbatim error text. -/
def NewErrorModal (title content : String) : Modal :=
  { type := .info, title := title, content := content, width := 60 }

/-- Modelled from the spec: `NewConfirmModal` (constructor not in the
sources).  §4.3: a Confirm variant wrapping a destructive operation; selecting
"confirm" emits the wrapped message, "cancel" simply dismisses. -/
def NewConfirmModal (title content : String) (onConfirm onCancel : Option Msg) : Modal :=
  { type := .confirm, title := title, content := content, width := 60,
    actions :=
      [{ label := "Confirm", key := "enter", isPrimary := true, onSelect := onConfirm },
       { label := "Cancel", key := "esc", isPrimary := false, onSelect := onCancel }],
    selected := 0 }

/-- Modelled from the spec: `NewScrollableHelpModal` (constructor not in the
sources); an info modal whose content scrolls — scrolling is visual and
abstracted. -/
def NewScrollableHelpModal (title content : String) (_visibleLines : Int) : Modal :=
  { type := .info, title := title, content := content, width := 70 }

/-- Modelled from the spec: `NewScrollableInfoModalWide` (constructor not in
the sources); a wide scrollable info modal. -/
def NewScrollableInfoModalWide (title content : String) (_visibleLines w : Int) : Modal :=
  { type := .info, title := title, content := content, width := w }

/-- Help text of the help modal (model.go:972). -/
def helpModalText : String :=
  "Navigation:\n  ↑/↓ or j/k    Navigate list\n  Enter         Connect to container\n\n" ++
  "Actions:\n  a             Container actions menu\n  i             View container details\n" ++
  "  ?             Show this help\n  q             Quit Maestro\n\n" ++
  "Container Connection:\n  Ctrl+b d      Detach from container\n" ++
  "  Ctrl+b 0      Switch to Claude window\n  Ctrl+b 1      Switch to shell window\n\n" ++
  "Scrolling in Modals:\n  ↑/↓ or j/k    Scroll line by line\n  PgUp/PgDn     Scroll page by page\n" ++
  "  Space         Scroll down one page\n  Home          Jump to top\n  End           Jump to bottom\n\n" ++
  "This is scrollable content - try scrolling if you see\nthe scroll indicators (▲/▼) below this text!"

/-- Embedding of `createHelpModal` (model.go:971). -/
def createHelpModal : Modal :=
  NewScrollableHelpModal "Maestro Keybindings" helpModalText 10

/-- Embedding of `createPrerequisiteCheckModal` (model.go:1003): the
"checking" placeholder shown while the prerequisite task is pending — an info
modal with an empty action list and Esc disabled. -/
def createPrerequisiteCheckModal : Modal :=
  { type := .info,
    title := "System Requirements",
    content := "Checking Prerequisites...\n\n• Claude CLI: Checking...\n• Docker: Checking...\n\n" ++
      "Please wait while we verify your system requirements.",
    width := 70,
    disableEsc := true,
    actions := [] }

/-- Content built by the `prerequisiteCheckResult` branch of `Update`
(model.go:535): per-tool pass/fail lines followed by install hints or the
all-clear. -/
def prereqResultContent (ca : Bool) (cm : String) (da : Bool) (dm : String) : String :=
  let claudeStatus := if ca then "✓" else "✗"
  let dockerStatus := if da then "✓" else "✗"
  let content := "Prerequisite Check Complete\n\n• Claude CLI: " ++ claudeStatus ++ " " ++ cm ++
    "\n• Docker: " ++ dockerStatus ++ " " ++ dm ++ "\n\n"
  if !(ca && da) then
    content ++ "Please install missing prerequisites before continuing:\n\n" ++
      (if !ca then "• Install Claude CLI from https://claude.ai/download\n" else "") ++
      (if !da then "• Install Docker from https://docker.com/get-started\n" else "") ++
      "\nStep 1 of 6"
  else
    content ++ "All prerequisites are installed! You're ready to continue.\n\nStep 1 of 6"

/-- Modal built by the `prerequisiteCheckResult` branch of `Update`
(model.go:535): the placeholder is replaced in place; the action list holds
exactly Continue (→ next step) when both checks passed, else exactly Exit
(→ exit wizard). -/
def prereqResultModal (ca : Bool) (cm : String) (da : Bool) (dm : String) : Modal :=
  let base : Modal :=
    { type := .info,
      title := "System Requirements",
      content := prereqResultContent ca cm da dm,
      width := 70,
      disableEsc := true,
      actions := [] }
  if ca && da then
    { base with actions :=
        [{ label := "Continue", key := "enter", isPrimary := true,
           onSelect := some .wizardNextStep }] }
  else
    { base with actions :=
        [{ label := "Exit", key := "enter", isPrimary := false,
           onSelect := some .exitWizard }] }

/-- Embedding of `createWizardWelcomeModal` (model.go:1039). -/
def createWizardWelcomeModal : Modal :=
  { type := .info,
    title := "Welcome to Maestro",
    content := "Welcome to Maestro!\n\nMaestro manages isolated Docker containers for Claude Code development.\n" ++
      "Each container runs an independent Claude instance with:\n\n" ++
      "  • Its own git branch for clean organization\n  • Network firewall for security\n" ++
      "  • Isolated environment and dependencies\n\nThis setup wizard will help you configure:\n\n" ++
      "  1. Authentication with Claude\n  2. Network firewall rules\n  3. Container resource limits\n\nStep 2 of 6",
    width := 70,
    disableEsc := true,
    actions :=
      [{ label := "Get Started", key := "enter", isPrimary := true,
         onSelect := some .wizardNextStep },
       { label := "Skip Wizard", key := "s", isPrimary := false,
         onSelect := some .exitWizard }] }

/-- Embedding of `createWizardAuthModal` (model.go:1083).  Content text is
kept in abbreviated but distinguishing form (it appears in no claim); the
action list and its emitted messages follow the source exactly: a Run Auth
Now button is present only when credentials are missing, and it saves the
wizard config with `runAuthNow = true`. -/
def createWizardAuthModal (m : Model) (hasCredentials : Bool) : Modal :=
  let content :=
    if hasCredentials then
      "Authentication: ✓ Already configured\n\nYour Claude credentials are already set up and ready to use.\n\nStep 3 of 6"
    else
      "Authentication: Setup required\n\nMaestro needs to authenticate with Claude to create containers.\n\n" ++
      "At any time you can authenticate by running:\n\n  maestro auth\n\nStep 3 of 6"
  let actions :=
    if hasCredentials then
      [{ label := "Next", key := "enter", isPrimary := true,
         onSelect := some Msg.wizardNextStep },
       { label := "Back", key := "b", isPrimary := false,
         onSelect := some Msg.wizardPrevStep }]
    else
      [{ label := "Run Auth Now", key := "a", isPrimary := true,
         onSelect := some (Msg.saveWizardCfg m.wizardMemory m.wizardCPUs m.wizardDomains true) },
       { label := "Next", key := "enter", isPrimary := true,
         onSelect := some Msg.wizardNextStep },
       { label := "Back", key := "b", isPrimary := false,
         onSelect := some Msg.wizardPrevStep }]
  { type := .info,
    title := "Authentication",
    content := content,
    width := 70,
    disableEsc := true,
    actions := actions }

/-- Embedding of `createWizardFirewallModal` (model.go:1185). -/
def createWizardFirewallModal : Modal :=
  { type := .info,
    title := "Firewall Setup",
    content := "Network Firewall\n\nMaestro containers use a network firewall to control outbound connections.\n" ++
      "Only whitelisted domains can be accessed from within containers.\n\n" ++
      "Common domains (GitHub, NPM, PyPI, etc.) are pre-configured.\n" ++
      "You can add more domains later with the Firewall settings (f key).\n\nStep 4 of 6",
    width := 70,
    disableEsc := true,
    actions :=
      [{ label := "Next", key := "enter", isPrimary := true, onSelect := some .wizardNextStep },
       { label := "Back", key := "b", isPrimary := false, onSelect := some .wizardPrevStep }] }

/-- Embedding of `createWizardContainerDefaultsModal` (model.go:1222). -/
def createWizardContainerDefaultsModal (m : Model) : Modal :=
  { type := .info,
    title := "Container Defaults",
    content := "Container Defaults\n\nConfigure default resource limits for containers.\n\nCurrent settings:\n" ++
      "  Memory:  " ++ m.wizardMemory ++ "\n  CPUs:    " ++ m.wizardCPUs ++ "\n\n" ++
      "These settings control how much memory and CPU each container can use.\n" ++
      "You can adjust these later in Settings (s key).\n\nStep 5 of 6",
    width := 70,
    disableEsc := true,
    actions :=
      [{ label := "Next", key := "enter", isPrimary := true, onSelect := some .wizardNextStep },
       { label := "Back", key := "b", isPrimary := false, onSelect := some .wizardPrevStep }] }

/-- Embedding of `createWizardCompletionModal` (model.go:1262): Finish saves
the collected answers (memory, cpus, domains, run-auth-now flag). -/
def createWizardCompletionModal (m : Model) : Modal :=
  { type := .info,
    title := "Welcome Complete",
    content := "Setup Complete! 🎉\n\nYour configuration:\n\n" ++
      "  Memory Limit:  " ++ m.wizardMemory ++ "\n  CPU Limit:     " ++ m.wizardCPUs ++ "\n" ++
      "  Firewall:      " ++ toString m.wizardDomains.length ++ " domains configured\n\n" ++
      "You're ready to start using Maestro!\n\n" ++
      "On the main screen, press 'n' to create your first container.\n" ++
      "Use 's' to adjust settings and 'f' to modify firewall rules.\n\nStep 6 of 6",
    width := 70,
    disableEsc := true,
    actions :=
      [{ label := "Finish", key := "enter", isPrimary := true,
         onSelect := some (Msg.saveWizardCfg m.wizardMemory m.wizardCPUs m.wizardDomains m.wizardRunAuthNow) },
       { label := "Back", key := "b", isPrimary := false, onSelect := some .wizardPrevStep }] }

/-- Embedding of `getWizardModal` (model.go:1306): pick the modal for the
current wizard step; step 3 re-runs the first-run predicate to decide whether
credentials exist; any other step falls back to the welcome modal. -/
def getWizardModal (m : Model) (e : Env) : Modal :=
  if m.wizardStep == 1 then createPrerequisiteCheckModal
  else if m.wizardStep == 2 then createWizardWelcomeModal
  else if m.wizardStep == 3 then createWizardAuthModal m (!isFirstRun e)
  else if m.wizardStep == 4 then createWizardFirewallModal
  else if m.wizardStep == 5 then createWizardContainerDefaultsModal m
  else if m.wizardStep == 6 then createWizardCompletionModal m
  else createWizardWelcomeModal

/-- Embedding of `createActionsModal` (model.go:1686): the per-container
context action menu. -/
def createActionsModal (c : Info) : Modal :=
  { type := .actions,
    title := "Container Actions",
    content := "Select an action for: " ++ c.shortName,
    width := 90,
    actions :=
      [{ label := "Connect", key := "c", isPrimary := true,
         onSelect := some (Msg.connectRequest c.name) },
       { label := "Stop", key := "s", isPrimary := false,
         onSelect := some (Msg.containerAction .stop c.name) },
       { label := "Restart", key := "r", isPrimary := false,
         onSelect := some (Msg.containerAction .restart c.name) },
       { label := "Delete", key := "d", isPrimary := false,
         onSelect := some (Msg.containerAction .delete c.name) },
       { label := "Refresh Tokens", key := "t", isPrimary := false,
         onSelect := some (Msg.containerAction .refreshTokens c.name) },
       { label := "Cancel", key := "esc", isPrimary := false, onSelect := none }],
    selected := 0 }

/-- Embedding of `createContainerCreateModal` (model.go:1454): a form modal;
the Create action's callback reads the editable form fields, which are
outside the modeled scope, so its emitted message is left abstract. -/
def createContainerCreateModal : Modal :=
  { type := .form,
    title := "Create New Container",
    content := "",
    width := 100,
    actions :=
      [{ label := "Create", key := "ctrl+s", isPrimary := true, onSelect := none },
       { label := "Cancel", key := "esc", isPrimary := false, onSelect := none }] }

/-- Embedding of `createSettingsModal` (model.go:1536): a form modal; the
Save callback reads the form fields (outside the modeled scope). -/
def createSettingsModal : Modal :=
  { type := .form,
    title := "Settings",
    content := "",
    width := 100,
    actions :=
      [{ label := "Save", key := "ctrl+s", isPrimary := true, onSelect := none },
       { label := "Cancel", key := "esc", isPrimary := false, onSelect := none }] }

/-- Embedding of `createFirewallModal` (model.go:1625): a form modal; the
Save callback reads the textarea (outside the modeled scope). -/
def createFirewallModal : Modal :=
  { type := .form,
    title := "Firewall Configuration",
    content := "",
    width := 100,
    actions :=
      [{ label := "Save", key := "ctrl+s", isPrimary := true, onSelect := none },
       { label := "Cancel", key := "esc", isPrimary := false, onSelect := none }] }

/-- Modelled from the spec: `Modal.Update` (the modal subsystem's own file is
not in the sources).  §3/§4.3: while active the modal owns keyboard input;
Enter selects the focused action and each action's callback returns a message
on explicit selection; an action's own trigger key selects it directly; Esc
closes the modal unless disabled; a closed or replaced modal yields `none`;
non-key messages leave the modal unchanged. -/
def Modal.update (mo : Modal) (msg : Msg) : Option Modal × List Cmd :=
  match msg with
  | .key k =>
      if k == "esc" && !mo.disableEsc then (none, [])
      else if k == "enter" then
        match mo.actions.get? mo.selected with
        | some a => (none, match a.onSelect with | some m => [Cmd.emit m] | none => [])
        | none => (some mo, [])
      else
        match mo.actions.find? (fun a => a.key == k) with
        | some a => (none, match a.onSelect with | some m => [Cmd.emit m] | none => [])
        | none => (some mo, [])
  | _ => (some mo, [])

/-- Currently selected entry of the home view, when the cursor is valid. -/
def HomeModel.selectedInfo (hv : HomeModel) : Option Info :=
  if 0 ≤ hv.cursor then hv.containers.get? hv.cursor.toNat else none

/-- Modelled from the spec: `views.HomeModel.Update` (the `views` package is
not in the sources).  §2/§6: up/down move the cursor within the list, Enter
requests a connection to the selected entry, `a` opens the actions menu for
it; everything else is ignored. -/
def HomeModel.update (hv : HomeModel) (msg : Msg) : HomeModel × List Cmd :=
  match msg with
  | .key k =>
      if k == "up" || k == "k" then
        if hv.containers.isEmpty then (hv, [])
        else ({ hv with cursor := max (hv.cursor - 1) 0 }, [])
      else if k == "down" || k == "j" then
        if hv.containers.isEmpty then (hv, [])
        else ({ hv with cursor := min (hv.cursor + 1) ((hv.containers.length : Int) - 1) }, [])
      else if k == "enter" then
        match hv.selectedInfo with
        | some c => (hv, [Cmd.emit (.connectRequest c.name)])
        | none => (hv, [])
      else if k == "a" then
        match hv.selectedInfo with
        | some c => (hv, [Cmd.emit (.showActionsMenu c)])
        | none => (hv, [])
      else (hv, [])
  | _ => (hv, [])

/-- Routing of a message to the home view at the bottom of `Update`
(model.go:961). -/
def routeHome (m : Model) (msg : Msg) : Model × List Cmd :=
  match m.homeView with
  | some hv =>
      let r := hv.update msg
      ({ m with homeView := some r.1 }, r.2)
  | none => (m, [])

/-- Embedding of the `exitWizardMsg` branch of `Update` (model.go:475): when
no config file exists a minimal default config is saved first (a failure
shows a Warning modal and stays in wizard mode); otherwise the model leaves
wizard mode and starts normal operation. -/
def exitWizardHandler (m : Model) (e : Env) : Model × List Cmd :=
  let proceed : Model × List Cmd :=
    ({ m with wizardMode := false, modal := none, loading := true, ready := false },
     [Cmd.loadContainers, Cmd.spinnerTick, Cmd.animationTick, Cmd.refreshTick])
  if !e.configFileExists then
    match e.saveConfigResult with
    | some err =>
        ({ m with modal := some (NewErrorModal "Warning" ("Could not create default config: " ++ err)) }, [])
    | none => proceed
  else proceed

/-- Embedding of the `saveWizardConfigMsg` branch of `Update` (model.go:601):
a save failure shows an error modal; with `runAuthNow` the loop quits with a
run-auth result; otherwise the model leaves wizard mode, starts normal
operation and toasts success. -/
def saveWizardCfgHandler (m : Model) (runAuthNow : Bool) (e : Env) : Model × List Cmd :=
  match e.saveConfigResult with
  | some err =>
      ({ m with modal := some (NewErrorModal "Failed to save configuration" err) }, [])
  | none =>
      if runAuthNow then
        ({ m with result := some { action := .runAuth } }, [Cmd.quit])
      else
        ({ m with wizardMode := false, modal := none, loading := true, ready := false },
         [Cmd.loadContainers, Cmd.spinnerTick, Cmd.animationTick, Cmd.refreshTick,
          Cmd.toast "Success" "Configuration saved!"])

/-- Embedding of the `containersLoadedMsg` branch of `Update` (model.go:697):
remember the selected container's name when the selection is valid, rebuild
the home view from the fresh list, restore the cursor to the first entry with
the remembered (non-empty) name, mark Ready, refresh the statusbar, and toast
only on the initial load. -/
def containersLoadedHandler (m : Model) (cs : List Info) (e : Env) : Model × List Cmd :=
  let selectedContainerName :=
    match m.homeView with
    | some hv =>
        if hv.containers.length > 0 then
          if 0 ≤ hv.cursor ∧ hv.cursor < (hv.containers.length : Int) then
            ((hv.containers.get? hv.cursor.toNat).map Info.name).getD ""
          else ""
        else ""
    | none => ""
  let hv := NewHomeModel cs
  let hv :=
    if selectedContainerName != "" then
      match cs.findIdx? (fun c => c.name == selectedContainerName) with
      | some i => hv.SetCursor i
      | none => hv
    else hv
  let m := { m with homeView := some hv, loading := false, operationStatus := "Ready",
                    containerCount := cs.length }
  let m := updateStatusBar m e
  if m.ready then (m, [])
  else
    ({ m with ready := true },
     [Cmd.toast "Success" ("Loaded " ++ toString cs.length ++ " containers")])

/-- Embedding of `handleContainerAction` (model.go:1753): stop/delete raise a
confirmation modal; restart and token refresh start immediately with a toast,
the in-progress flag and the operation spinner. -/
def handleContainerAction (m : Model) (a : OperationType) (name : String) : Model × List Cmd :=
  match a with
  | .stop | .delete =>
      let actionVerb := if a == .delete then "remove" else a.str
      ({ m with modal := some (NewConfirmModal
            ("Confirm " ++ a.str.capitalize)
            ("Are you sure you want to " ++ actionVerb ++ " container '" ++ name ++ "'?")
            (some (Msg.confirmAction a name))
            none) }, [])
  | .restart =>
      ({ m with operationInProgress := true, operationStatus := "Restarting..." },
       [Cmd.toast "Info" ("Restarting container " ++ name ++ "..."),
        Cmd.performOperation .restart name, Cmd.opSpinnerTick])
  | .refreshTokens =>
      ({ m with operationInProgress := true, operationStatus := "Refreshing tokens..." },
       [Cmd.toast "Info" ("Refreshing tokens for " ++ name ++ "..."),
        Cmd.performOperation .refreshTokens name, Cmd.opSpinnerTick])

/-- Embedding of the `dockerOperationResult` branch of `Update`
(model.go:878): success toasts the per-operation verb, flips to Syncing and
reloads immediately; failure resets to Ready behind a blocking error modal. -/
def dockerOpResultHandler (m : Model) (a : OperationType) (name : String)
    (success : Bool) (err : String) : Model × List Cmd :=
  let m := { m with operationInProgress := false }
  if success then
    let actionVerb :=
      match a with
      | .delete => "removed"
      | .stop => "stopped"
      | .restart => "restarted"
      | .refreshTokens => "tokens refreshed for"
    ({ m with operationStatus := "Syncing..." },
     [Cmd.toast "Success" ("Container " ++ name ++ " " ++ actionVerb), Cmd.loadContainers])
  else
    ({ m with operationStatus := "Ready",
              modal := some (NewErrorModal "Operation Failed"
                ("Failed to " ++ a.str ++ " container " ++ name ++ ":\n\n" ++ err)) }, [])

/-- Embedding of the `i` key handler inside `Update` (model.go:929): fetch
details for the selected container synchronously and show them (or the fetch
error) in a modal. -/
def detailsKeyHandler (m : Model) (e : Env) : Model :=
  match m.homeView with
  | some hv =>
      if hv.containers.length > 0 then
        if 0 ≤ hv.cursor ∧ hv.cursor < (hv.containers.length : Int) then
          match e.detailsResult with
          | .error err =>
              { m with modal := some (NewErrorModal "Error"
                  ("Failed to fetch container details:\n\n" ++ err)) }
          | .ok content =>
              { m with modal := some (NewScrollableInfoModalWide "Container Details" content 20 100) }
        else m
      else m
  | none => m

/-- Embedding of the `tea.KeyMsg` branch of `Update` (model.go:907): the
wizard step-0 Enter transition, the global quit keys, the modal-opening keys,
and fall-through to the home view. -/
def keyHandler (m : Model) (k : String) (e : Env) : Model × List Cmd :=
  if m.wizardMode && m.animationComplete && m.wizardStep == 0 && k == "enter" then
    ({ m with wizardStep := 1, modal := some createPrerequisiteCheckModal }, [Cmd.checkPrereqs])
  else if k == "q" || k == "ctrl+c" then
    ({ m with result := some { action := .quit } }, [Cmd.quit])
  else if k == "?" then
    (if m.wizardMode then m else { m with modal := some createHelpModal }, [])
  else if k == "i" then
    (detailsKeyHandler m e, [])
  else if k == "n" then
    ({ m with modal := some createContainerCreateModal }, [])
  else if k == "s" then
    ({ m with modal := some createSettingsModal }, [])
  else if k == "f" then
    ({ m with modal := some createFirewallModal }, [])
  else routeHome m (.key k)

/-- Second half of `Update`'s message switch (model.go:649), reached only
when no wizard-lifecycle message matched and no modal swallowed the input. -/
def updateMain (m : Model) (msg : Msg) (e : Env) : Model × List Cmd :=
  match msg with
  | .windowSize w h =>
      let m := { m with width := w, height := h, ready := true }
      let r :=
        if m.wizardMode && m.wizardStep > 0 && m.modal.isNone then
          (({ m with modal := some (getWizardModal m e) } : Model),
           if m.wizardStep == 1 then [Cmd.checkPrereqs] else [])
        else (m, ([] : List Cmd))
      let m := r.1
      (match m.homeView with
       | some hv =>
           if 0 ≤ m.cachedCursorPos then
             ({ m with homeView := some (hv.SetCursor m.cachedCursorPos), cachedCursorPos := -1 }, r.2)
           else (m, r.2)
       | none => (m, r.2))
  | .spinnerTick =>
      (m, (if m.loading then [Cmd.spinnerTick] else [])
            ++ (if m.operationInProgress then [Cmd.opSpinnerTick] else []))
  | .containersLoaded cs => containersLoadedHandler m cs e
  | .connectRequest name =>
      ({ m with result := some { action := .connect, containerName := name } }, [Cmd.quit])
  | .showActionsMenu c => ({ m with modal := some (createActionsModal c) }, [])
  | .createContainer td bn nc ex =>
      ({ m with result := some { action := .create, taskDescription := td, branchName := bn,
                                 noConnect := nc, exact := ex } }, [Cmd.quit])
  | .containerAction a name => handleContainerAction m a name
  | .confirmAction a name =>
      let status :=
        if a == .delete then "Deleting..."
        else if a == .stop then "Stopping..."
        else m.operationStatus
      ({ m with operationInProgress := true, operationStatus := status },
       [Cmd.performOperation a name, Cmd.opSpinnerTick])
  | .dockerOpResult a name success err => dockerOpResultHandler m a name success err
  | .key k => keyHandler m k e
  | _ => routeHome m msg

/-- True exactly for the designated quit keys. -/
def isQuitKey (msg : Msg) : Bool :=
  match msg with
  | .key k => k == "q" || k == "ctrl+c"
  | _ => false

/-- Routing stage after the wizard-lifecycle switch (model.go:632): in wizard
mode the quit keys end the loop even under a modal; otherwise an active modal
receives the message exclusively; otherwise the main switch runs. -/
def updateStage2 (m : Model) (msg : Msg) (e : Env) : Model × List Cmd :=
  if m.wizardMode && isQuitKey msg then
    ({ m with result := some { action := .quit } }, [Cmd.quit])
  else
    match m.modal with
    | some mo =>
        let r := mo.update msg
        ({ m with modal := r.1 }, r.2)
    | none => updateMain m msg e

/-- Embedding of `Update` (model.go:436): the event-loop handler.  The first
match mirrors the source's leading type switch (absorbed unconditionally);
everything else flows through the wizard-quit check, the modal check, and the
main switch.  The alert model's own lifecycle update is abstracted. -/
def Update (m : Model) (msg : Msg) (e : Env) : Model × List Cmd :=
  match msg with
  | .tick => ({ m with animationFrame := m.animationFrame + 1 }, [Cmd.animationTick])
  | .wizAnimTick =>
      if m.wizardMode && !m.animationComplete then
        let m := { m with animationColumn := m.animationColumn + 1 }
        if 87 ≤ m.animationColumn then ({ m with animationComplete := true }, [])
        else (m, [Cmd.wizAnimationTick])
      else (m, [])
  | .refreshTickMsg =>
      if m.modal.isSome || m.operationInProgress then (m, [Cmd.refreshTick])
      else ({ m with operationStatus := "Syncing..." }, [Cmd.loadContainers, Cmd.refreshTick])
  | .exitWizard => exitWizardHandler m e
  | .wizardNextStep =>
      let m := { m with wizardStep := m.wizardStep + 1 }
      let m := { m with modal := some (getWizardModal m e) }
      if m.wizardStep == 1 then (m, [Cmd.checkPrereqs]) else (m, [])
  | .wizardPrevStep =>
      if 1 < m.wizardStep then
        let m := { m with wizardStep := m.wizardStep - 1 }
        let m := { m with modal := some (getWizardModal m e) }
        if m.wizardStep == 1 then (m, [Cmd.checkPrereqs]) else (m, [])
      else (m, [])
  | .updateWizardConfig mem cpus =>
      let m := { m with wizardMemory := mem, wizardCPUs := cpus,
                        wizardStep := m.wizardStep + 1 }
      ({ m with modal := some (getWizardModal m e) }, [])
  | .prereqResult ca cm da dm =>
      ({ m with modal := some (prereqResultModal ca cm da dm) }, [])
  | .saveWizardCfg _mem _cpus _doms runAuthNow => saveWizardCfgHandler m runAuthNow e
  | _ => updateStage2 m msg e

/-- Completion message produced by running the `loadContainers` task
(model.go:423): enumeration failure is swallowed and reported as an empty
list with a nil error. -/
def runLoadContainers (e : Env) : Msg :=
  match e.listContainers with
  | .ok cs => .containersLoaded cs
  | .error _ => .containersLoaded []

/-- Claim C1 (counterexample): `Update` is not deterministic in
(state, message) alone — the `containersLoadedMsg` branch calls
`updateStatusBar`, whose fourth column embeds the wall-clock time, so two
invocations on the same state and message at different times produce
different states. -/
theorem C1_clock_counterexample :
    (Update { ready := true } (.containersLoaded []) { timeHHMM := "12:00" }).1 ≠
      (Update { ready := true } (.containersLoaded []) { timeHHMM := "12:01" }).1 := by
  decide

/-- Claim C1 (amended): `Update` is deterministic once the synchronous
external reads (clock, filesystem checks, config-write results, registry
results) are fixed: in the embedding these are exactly the `Env` argument,
so same (state, message, environment) gives the same (state, commands). -/
theorem C1_determinism_fixed_env (s : Model) (msg : Msg) (e₁ e₂ : Env)
    (h : e₁ = e₂) : Update s msg e₁ = Update s msg e₂ := by
  rw [h]

/-- Witness for C1 at a concrete input. -/
theorem C1_determinism_fixed_env_witness :
    ({ timeHHMM := "12:00" } : Env) = ({ timeHHMM := "12:00" } : Env) ∧
      Update { ready := true } .tick { timeHHMM := "12:00" } =
        Update { ready := true } .tick { timeHHMM := "12:00" } :=
  ⟨rfl, C1_determinism_fixed_env { ready := true } .tick _ _ rfl⟩

/-- Claim C5: a background-refresh tick with an active modal or an operation
in flight leaves the state unchanged and only reschedules itself; otherwise
it flips the status to Syncing and schedules the reload plus the next
tick. -/
theorem C5_refresh_tick_gating (s : Model) (e : Env) :
    (s.modal.isSome = true ∨ s.operationInProgress = true →
      Update s .refreshTickMsg e = (s, [Cmd.refreshTick])) ∧
    (s.modal = none → s.operationInProgress = false →
      Update s .refreshTickMsg e =
        ({ s with operationStatus := "Syncing..." }, [Cmd.loadContainers, Cmd.refreshTick])) := by
  constructor
  · intro h
    simp only [Update]
    rcases h with h | h <;> simp [h]
  · intro h1 h2
    simp [Update, h1, h2]

/-- Witness for C5 at concrete inputs covering both branches. -/
theorem C5_refresh_tick_gating_witness :
    Update { modal := some createHelpModal } .refreshTickMsg {} =
        ({ modal := some createHelpModal }, [Cmd.refreshTick]) ∧
      Update { ready := true } .refreshTickMsg {} =
        ({ ready := true, operationStatus := "Syncing..." }, [Cmd.loadContainers, Cmd.refreshTick]) :=
  ⟨(C5_refresh_tick_gating { modal := some createHelpModal } {}).1 (Or.inl (by decide)),
   (C5_refresh_tick_gating { ready := true } {}).2 rfl rfl⟩

/-- Claim C10: with a config file present and `bedrock.enabled` set (and
neither wizard flag), `isFirstRun` is false and the controller starts in
normal mode — for every credentials-existence predicate, in particular when
no credentials file exists anywhere. -/
theorem C10_bedrock_skips_creds (e : Env) (cached : Option CachedState)
    (hc : e.configFileExists = true) (hb : e.bedrockEnabled = true)
    (ha : e.wizardAlwaysRun = false) (hr : e.resumeAfterAuth = false) :
    isFirstRun e = false ∧ (NewWithCache cached e).wizardMode = false := by
  have hf : isFirstRun e = false := by
    simp [isFirstRun, hc, hb, ha, hr]
  refine ⟨hf, ?_⟩
  unfold NewWithCache
  rw [hf]
  cases cached with
  | none => rfl
  | some c =>
      by_cases hce : c.containers.isEmpty <;> simp [hce]

/-- Witness for C10: the credentials file is absent everywhere, yet the
controller starts in normal mode. -/
theorem C10_bedrock_skips_creds_witness :
    ({ bedrockEnabled := true, credsFileExistsAt := fun _ => false } : Env).configFileExists = true ∧
      isFirstRun { bedrockEnabled := true, credsFileExistsAt := fun _ => false } = false ∧
      (NewWithCache none { bedrockEnabled := true, credsFileExistsAt := fun _ => false }).wizardMode = false :=
  ⟨rfl,
    (C10_bedrock_skips_creds _ none rfl rfl rfl rfl).1,
    (C10_bedrock_skips_creds _ none rfl rfl rfl rfl).2⟩


theorem containersLoadedHandler_wizardStep (m : Model) (cs : List Info) (e : Env) :
    (containersLoadedHandler m cs e).1.wizardStep = m.wizardStep := by
  simp only [containersLoadedHandler, updateStatusBar]
  repeat' split
  all_goals rfl

theorem handleContainerAction_wizardStep (m : Model) (a : OperationType) (n : String) :
    (handleContainerAction m a n).1.wizardStep = m.wizardStep := by
  cases a <;> rfl

theorem dockerOpResultHandler_wizardStep (m : Model) (a : OperationType) (n : String)
    (success : Bool) (err : String) :
    (dockerOpResultHandler m a n success err).1.wizardStep = m.wizardStep := by
  cases success <;> cases a <;> rfl

theorem routeHome_wizardStep (m : Model) (msg : Msg) :
    (routeHome m msg).1.wizardStep = m.wizardStep := by
  simp only [routeHome]
  repeat' split
  all_goals rfl

theorem detailsKeyHandler_wizardStep (m : Model) (e : Env) :
    (detailsKeyHandler m e).wizardStep = m.wizardStep := by
  simp only [detailsKeyHandler]
  repeat' split
  all_goals rfl

theorem keyHandler_wizardStep (m : Model) (k : String) (e : Env) :
    (keyHandler m k e).1.wizardStep = m.wizardStep ∨ (keyHandler m k e).1.wizardStep = 1 := by
  simp only [keyHandler]
  repeat' split
  · right; rfl
  all_goals
    first
      | (left; rfl)
      | (left; rw [routeHome_wizardStep])
      | (left; rw [detailsKeyHandler_wizardStep])

theorem updateMain_wizardStep (m : Model) (msg : Msg) (e : Env) :
    (updateMain m msg e).1.wizardStep = m.wizardStep ∨ (updateMain m msg e).1.wizardStep = 1 := by
  cases msg
  case containersLoaded cs => exact Or.inl (containersLoadedHandler_wizardStep m cs e)
  case containerAction a n => exact Or.inl (handleContainerAction_wizardStep m a n)
  case dockerOpResult a n success err =>
    exact Or.inl (dockerOpResultHandler_wizardStep m a n success err)
  case key k => exact keyHandler_wizardStep m k e
  case windowSize w h =>
    left
    simp only [updateMain]
    repeat' split
    all_goals rfl
  case spinnerTick => exact Or.inl rfl
  case connectRequest n => exact Or.inl rfl
  case showActionsMenu c => exact Or.inl rfl
  case createContainer a b c d => exact Or.inl rfl
  case confirmAction a n => exact Or.inl rfl
  all_goals exact Or.inl (routeHome_wizardStep m _)

theorem updateStage2_wizardStep (m : Model) (msg : Msg) (e : Env) :
    (updateStage2 m msg e).1.wizardStep = m.wizardStep ∨
      (updateStage2 m msg e).1.wizardStep = 1 := by
  simp only [updateStage2]
  repeat' split
  · exact Or.inl rfl
  · exact Or.inl rfl
  · exact updateMain_wizardStep m msg e

theorem exitWizardHandler_wizardStep (m : Model) (e : Env) :
    (exitWizardHandler m e).1.wizardStep = m.wizardStep := by
  simp only [exitWizardHandler]
  repeat' split
  all_goals rfl

theorem saveWizardCfgHandler_wizardStep (m : Model) (b : Bool) (e : Env) :
    (saveWizardCfgHandler m b e).1.wizardStep = m.wizardStep := by
  simp only [saveWizardCfgHandler]
  repeat' split
  all_goals rfl

/-- Helper: the only writes `Update` makes to `wizardStep` are the Next and
config increments, the guarded Prev decrement, and the jump to step 1 on the
wizard's opening Enter. -/
theorem update_wizardStep_cases (s : Model) (msg : Msg) (e : Env) :
    (Update s msg e).1.wizardStep = s.wizardStep ∨
      (Update s msg e).1.wizardStep = s.wizardStep + 1 ∨
      ((Update s msg e).1.wizardStep = s.wizardStep - 1 ∧ 1 < s.wizardStep) ∨
      (Update s msg e).1.wizardStep = 1 := by
  cases msg
  case tick => exact Or.inl rfl
  case wizAnimTick =>
    simp only [Update]
    repeat' split
    all_goals exact Or.inl rfl
  case refreshTickMsg =>
    simp only [Update]
    repeat' split
    all_goals exact Or.inl rfl
  case exitWizard => exact Or.inl (exitWizardHandler_wizardStep s e)
  case wizardNextStep =>
    simp only [Update]
    repeat' split
    all_goals exact Or.inr (Or.inl rfl)
  case wizardPrevStep =>
    simp only [Update]
    repeat' split
    · rename_i h _
      exact Or.inr (Or.inr (Or.inl ⟨rfl, h⟩))
    · rename_i h _
      exact Or.inr (Or.inr (Or.inl ⟨rfl, h⟩))
    · exact Or.inl rfl
  case updateWizardConfig a b => exact Or.inr (Or.inl rfl)
  case prereqResult a b c d => exact Or.inl rfl
  case saveWizardCfg a b c d => exact Or.inl (saveWizardCfgHandler_wizardStep s d e)
  all_goals
    rcases updateStage2_wizardStep s _ e with h | h
    · exact Or.inl h
    · exact Or.inr (Or.inr (Or.inr h))

/-- Helper: every lower bound `c ≤ 1` on the wizard step is preserved by
every message. -/
theorem update_wizardStep_lb (c : Int) (hc : c ≤ 1) (s : Model) (msg : Msg) (e : Env)
    (h : c ≤ s.wizardStep) : c ≤ (Update s msg e).1.wizardStep := by
  rcases update_wizardStep_cases s msg e with h1 | h1 | ⟨h1, h2⟩ | h1 <;> omega

/-- Claim C8 (counterexample): a Next message arriving at step 6 drives the
wizard step to 7, outside the claimed closed range 0..6 — the increment has
no upper bound. -/
theorem C8_step_overflow_counterexample :
    (Update { wizardMode := true, wizardStep := 6 } .wizardNextStep {}).1.wizardStep = 7 := by
  decide

/-- Claim C8 (amended): Next increments the step by one with no upper bound
(so step 7 is reachable from step 6), Prev decrements by one only above step
1 and otherwise leaves the step unchanged, and no message ever drives the
step below 0. -/
theorem C8_step_transitions (s : Model) (msg : Msg) (e : Env) :
    ((Update s .wizardNextStep e).1.wizardStep = s.wizardStep + 1) ∧
      (1 < s.wizardStep → (Update s .wizardPrevStep e).1.wizardStep = s.wizardStep - 1) ∧
      (s.wizardStep ≤ 1 → (Update s .wizardPrevStep e).1.wizardStep = s.wizardStep) ∧
      (0 ≤ s.wizardStep → 0 ≤ (Update s msg e).1.wizardStep) := by
  refine ⟨?_, ?_, ?_, ?_⟩
  · simp only [Update]
    repeat' split
    all_goals rfl
  · intro h
    simp only [Update]
    rw [if_pos h]
    split
    all_goals rfl
  · intro h
    simp only [Update]
    rw [if_neg (by omega)]
  · exact update_wizardStep_lb 0 (by omega) s msg e

/-- Witness for C8 at a concrete state and message. -/
theorem C8_step_transitions_witness :
    (1 : Int) < 3 ∧ (3 : Int) ≤ 8 ∧ (0 : Int) ≤ 3 ∧
      (Update { wizardStep := 3 } .wizardNextStep {}).1.wizardStep = 4 ∧
      (Update { wizardStep := 3 } .wizardPrevStep {}).1.wizardStep = 2 ∧
      (Update { wizardStep := 1 } .wizardPrevStep {}).1.wizardStep = 1 ∧
      (0 : Int) ≤ (Update { wizardStep := 3 } .wizardPrevStep {}).1.wizardStep := by
  refine ⟨by omega, by omega, by omega, ?_, ?_, ?_, ?_⟩
  · exact (C8_step_transitions { wizardStep := 3 } .wizardPrevStep {}).1
  · exact (C8_step_transitions { wizardStep := 3 } .wizardPrevStep {}).2.1 (by decide)
  · exact (C8_step_transitions { wizardStep := 1 } .wizardPrevStep {}).2.2.1 (by decide)
  · exact (C8_step_transitions { wizardStep := 3 } .wizardPrevStep {}).2.2.2 (by decide)

/-- Claim C7 (counterexample): from the resume-after-auth initial state
(wizard step 3), the Auth modal for that state carries a Back action that
emits a Prev message; a single Prev message re-enters Welcome (step 2), and a
second one re-enters PrerequisiteCheck (step 1), so those steps are not
"never entered". -/
theorem C7_resume_counterexample :
    ((getWizardModal (NewWithCache none { resumeAfterAuth := true })
        { resumeAfterAuth := true }).actions.any
          (fun a => a.onSelect == some Msg.wizardPrevStep)) = true ∧
      (Update (NewWithCache none { resumeAfterAuth := true }) .wizardPrevStep
        { resumeAfterAuth := true }).1.wizardStep = 2 ∧
      (Update (Update (NewWithCache none { resumeAfterAuth := true }) .wizardPrevStep
          { resumeAfterAuth := true }).1 .wizardPrevStep
        { resumeAfterAuth := true }).1.wizardStep = 1 := by
  refine ⟨by decide, by decide, by decide⟩

/-- Claim C7 (amended): with the resume flag set the initial state is in
wizard mode at step 3 (Auth) with the opening animation marked complete and
no modal yet, and `Init` starts no animation ticker, so the Animation,
PrerequisiteCheck and Welcome steps are skipped on entry; and since Prev
floors at step 1, step 0 (Animation) is never re-entered from any state at
step ≥ 1 — but Welcome and PrerequisiteCheck stay reachable via Back. -/
theorem C7_resume_start (e : Env) (s : Model) (msg : Msg) (e' : Env)
    (hres : e.resumeAfterAuth = true) (hstep : 1 ≤ s.wizardStep) :
    (NewWithCache none e).wizardMode = true ∧
      (NewWithCache none e).wizardStep = 3 ∧
      (NewWithCache none e).animationComplete = true ∧
      (NewWithCache none e).modal = none ∧
      Init (NewWithCache none e) = [] ∧
      1 ≤ (Update s msg e').1.wizardStep := by
  have hfirst : isFirstRun e = true := by
    simp only [isFirstRun, hres]
    split
    · rfl
    · rfl
  refine ⟨?_, ?_, ?_, ?_, ?_, update_wizardStep_lb 1 (by omega) s msg e' hstep⟩
  all_goals
    simp only [NewWithCache, Init, hfirst, hres]
  all_goals rfl

/-- Witness for C7 at a concrete environment and state. -/
theorem C7_resume_start_witness :
    ({ resumeAfterAuth := true } : Env).resumeAfterAuth = true ∧
      (1 : Int) ≤ ({ wizardStep := 3 } : Model).wizardStep ∧
      (NewWithCache none { resumeAfterAuth := true }).wizardStep = 3 ∧
      1 ≤ (Update { wizardStep := 3 } .wizardPrevStep {}).1.wizardStep :=
  ⟨rfl, by decide,
    (C7_resume_start { resumeAfterAuth := true } { wizardStep := 3 } .wizardPrevStep {}
        rfl (by decide)).2.1,
    (C7_resume_start { resumeAfterAuth := true } { wizardStep := 3 } .wizardPrevStep {}
        rfl (by decide)).2.2.2.2.2⟩

/-- Claim C9: entering wizard step 1 — by Enter after the opening animation,
by Next from step 0, or by Prev from step 2 — schedules the one-shot
prerequisite-check task and shows the action-less "checking" placeholder
modal; the completion message replaces the active modal in place with a
results modal holding exactly one action: Continue emitting the next-step
message when both checks passed, Exit emitting the exit-wizard message
otherwise. -/
theorem C9_prereq_step (s : Model) (e : Env) (ca da : Bool) (cm dm : String) :
    (s.wizardMode = true → s.animationComplete = true → s.wizardStep = 0 → s.modal = none →
      Update s (.key "enter") e =
        ({ s with wizardStep := 1, modal := some createPrerequisiteCheckModal },
          [Cmd.checkPrereqs])) ∧
      (s.wizardStep = 0 →
        Update s .wizardNextStep e =
          ({ s with wizardStep := 1, modal := some createPrerequisiteCheckModal },
            [Cmd.checkPrereqs])) ∧
      (s.wizardStep = 2 →
        Update s .wizardPrevStep e =
          ({ s with wizardStep := 1, modal := some createPrerequisiteCheckModal },
            [Cmd.checkPrereqs])) ∧
      createPrerequisiteCheckModal.actions = [] ∧
      (Update s (.prereqResult ca cm da dm) e =
        ({ s with modal := some (prereqResultModal ca cm da dm) }, [])) ∧
      ((prereqResultModal ca cm da dm).actions =
        if ca && da then
          [{ label := "Continue", key := "enter", isPrimary := true,
             onSelect := some .wizardNextStep }]
        else
          [{ label := "Exit", key := "enter", isPrimary := false,
             onSelect := some .exitWizard }]) := by
  refine ⟨?_, ?_, ?_, rfl, rfl, ?_⟩
  · intro hw ha hs hm
    simp [Update, updateStage2, isQuitKey, updateMain, keyHandler, hw, ha, hs, hm]
  · intro hs
    simp [Update, getWizardModal, hs]
  · intro hs
    simp [Update, getWizardModal, hs]
  · simp only [prereqResultModal]
    split
    · rename_i h
      simp [h]
    · rename_i h
      simp [h]

/-- Witness for C9 at concrete states covering each hypothesis. -/
theorem C9_prereq_step_witness :
    Update { wizardMode := true, animationComplete := true } (.key "enter") {} =
        ({ wizardMode := true, animationComplete := true, wizardStep := 1,
           modal := some createPrerequisiteCheckModal }, [Cmd.checkPrereqs]) ∧
      Update { wizardMode := true, wizardStep := 2 } .wizardPrevStep {} =
        ({ wizardMode := true, wizardStep := 1,
           modal := some createPrerequisiteCheckModal }, [Cmd.checkPrereqs]) ∧
      (prereqResultModal true "found" false "not found").actions =
        [{ label := "Exit", key := "enter", isPrimary := false,
           onSelect := some .exitWizard }] := by
  refine ⟨?_, ?_, ?_⟩
  · exact (C9_prereq_step { wizardMode := true, animationComplete := true } {} true true "" "").1
      rfl rfl rfl rfl
  · exact (C9_prereq_step { wizardMode := true, wizardStep := 2 } {} true true "" "").2.2.1 rfl
  · exact ((C9_prereq_step { wizardMode := true } {} true false "found" "not found").2.2.2.2.2).trans
      (by decide)

/-- Claim C6: in wizard mode the quit keys end the loop with a quit result
even while a modal is open; outside wizard mode, while a modal is active,
every key — the quit keys included — is routed exclusively to the modal (the
state changes only through the modal, the emitted commands are exactly the
modal's, no quit command is scheduled and no terminal result is set). -/
theorem C6_modal_input_routing (s : Model) (mo : Modal) (k : String) (e : Env) :
    (s.wizardMode = true → s.modal = some mo → (k = "q" ∨ k = "ctrl+c") →
      Update s (.key k) e = ({ s with result := some { action := .quit } }, [Cmd.quit])) ∧
      (s.wizardMode = false → s.modal = some mo →
        Update s (.key k) e =
          ({ s with modal := (mo.update (.key k)).1 }, (mo.update (.key k)).2)) ∧
      Cmd.quit ∉ (mo.update (.key k)).2 := by
  refine ⟨?_, ?_, ?_⟩
  · intro hw hm hk
    rcases hk with hk | hk <;> subst hk <;> simp [Update, updateStage2, isQuitKey, hw]
  · intro hw hm
    simp [Update, updateStage2, isQuitKey, hw, hm]
  · simp only [Modal.update]
    repeat' split
    all_goals simp

/-- Witness for C6: in wizard mode `q` quits through an open modal; outside
wizard mode `q` is routed to the modal (which, having no `q` action, keeps
the state unchanged) and no quit is scheduled. -/
theorem C6_modal_input_routing_witness :
    Update { wizardMode := true, modal := some createHelpModal } (.key "q") {} =
        ({ wizardMode := true, modal := some createHelpModal,
           result := some { action := .quit } }, [Cmd.quit]) ∧
      Update { modal := some createHelpModal } (.key "q") {} =
        ({ modal := some createHelpModal }, []) ∧
      Cmd.quit ∉ (createHelpModal.update (.key "q")).2 := by
  refine ⟨?_, ?_, ?_⟩
  · exact (C6_modal_input_routing { wizardMode := true, modal := some createHelpModal }
      createHelpModal "q" {}).1 rfl rfl (Or.inl rfl)
  · exact ((C6_modal_input_routing { modal := some createHelpModal }
      createHelpModal "q" {}).2.1 rfl rfl).trans (by rfl)
  · exact (C6_modal_input_routing { modal := some createHelpModal }
      createHelpModal "q" {}).2.2

/-- Claim C4: the full delete flow for a container named `name` — the Delete
action request raises a Confirm modal wrapping the confirm message;
confirming (Enter) closes the modal and emits it; the confirmed action flips
the status to Deleting and schedules the delete task plus the operation
spinner; a successful completion toasts "removed", schedules the reload and
flips the status to Syncing; the subsequent list-loaded message returns the
status to Ready. -/
theorem C4_delete_flow (s : Model) (name : String) (e : Env) (cs : List Info)
    (hm : s.modal = none) :
    Update s (.containerAction .delete name) e =
        ({ s with modal := some (NewConfirmModal "Confirm Delete"
              ("Are you sure you want to remove container '" ++ name ++ "'?")
              (some (.confirmAction .delete name)) none) }, []) ∧
      Update ({ s with modal := some (NewConfirmModal "Confirm Delete"
              ("Are you sure you want to remove container '" ++ name ++ "'?")
              (some (.confirmAction .delete name)) none) }) (.key "enter") e =
        ({ s with modal := none }, [Cmd.emit (.confirmAction .delete name)]) ∧
      Update ({ s with modal := none }) (.confirmAction .delete name) e =
        ({ s with
            modal := none
            operationInProgress := true
            operationStatus := "Deleting..." },
          [Cmd.performOperation .delete name, Cmd.opSpinnerTick]) ∧
      Update ({ s with
            modal := none
            operationInProgress := true
            operationStatus := "Deleting..." }) (.dockerOpResult .delete name true "") e =
        ({ s with
            modal := none
            operationInProgress := false
            operationStatus := "Syncing..." },
          [Cmd.toast "Success" ("Container " ++ name ++ " " ++ "removed"),
           Cmd.loadContainers]) ∧
      (Update ({ s with
            modal := none
            operationInProgress := false
            operationStatus := "Syncing..." }) (.containersLoaded cs) e).1.operationStatus =
        "Ready" := by
  refine ⟨?_, ?_, ?_, ?_, ?_⟩
  · simp [Update, updateStage2, isQuitKey, updateMain, handleContainerAction, hm,
      show ("Confirm " ++ OperationType.delete.str.capitalize) = "Confirm Delete" from by decide]
  · simp [Update, updateStage2, isQuitKey, Modal.update, NewConfirmModal]
  · simp [Update, updateStage2, isQuitKey, updateMain]
  · simp [Update, updateStage2, isQuitKey, updateMain, dockerOpResultHandler]
  · simp only [Update, updateStage2, isQuitKey, updateMain, containersLoadedHandler,
      updateStatusBar, Bool.and_false, Bool.false_and, if_false]
    repeat' split
    all_goals first | rfl | simp_all

/-- Witness for C4 at a concrete state and container name. -/
theorem C4_delete_flow_witness :
    ({ ready := true } : Model).modal = none ∧
      Update ({ ready := true } : Model) (.containerAction .delete "x") {} =
        ({ ready := true
           modal := some (NewConfirmModal "Confirm Delete"
             ("Are you sure you want to remove container 'x'?")
             (some (.confirmAction .delete "x")) none) }, []) ∧
      (Update ({ ready := true
                 modal := none
                 operationInProgress := false
                 operationStatus := "Syncing..." } : Model)
          (.containersLoaded []) {}).1.operationStatus = "Ready" :=
  ⟨rfl,
    (C4_delete_flow { ready := true } "x" {} [] rfl).1,
    (C4_delete_flow { ready := true } "x" {} [] rfl).2.2.2.2⟩

/-- Claim C2 (counterexample): a failed enumeration does not keep the last
known Session — `loadContainers` converts the error into a loaded-message
with an empty list, and processing it replaces the one-entry home view by
the empty view. -/
theorem C2_failure_wipes_list_counterexample :
    runLoadContainers { listContainers := .error "registry down" } =
        .containersLoaded [] ∧
      (Update ({ ready := true, homeView := some ⟨[⟨"x", "x"⟩], 0⟩ } : Model)
          (runLoadContainers { listContainers := .error "registry down" })
          { listContainers := .error "registry down" }).1.homeView =
        some ⟨[], -1⟩ ∧
      (⟨[], -1⟩ : HomeModel) ≠ ⟨[⟨"x", "x"⟩], 0⟩ := by
  refine ⟨rfl, by decide, by decide⟩

/-- Helper: `updateStatusBar` only rewrites the statusbar text. -/
theorem updateStatusBar_ready (m : Model) (e : Env) : (updateStatusBar m e).ready = m.ready := rfl

/-- Helper: `updateStatusBar` leaves the modal untouched. -/
theorem updateStatusBar_modal (m : Model) (e : Env) : (updateStatusBar m e).modal = m.modal := rfl

/-- Helper: `updateStatusBar` leaves the home view untouched. -/
theorem updateStatusBar_homeView (m : Model) (e : Env) :
    (updateStatusBar m e).homeView = m.homeView := rfl

/-- Helper: `updateStatusBar` leaves the in-progress flag untouched. -/
theorem updateStatusBar_opInProgress (m : Model) (e : Env) :
    (updateStatusBar m e).operationInProgress = m.operationInProgress := rfl

/-- Helper: processing a loaded-message carrying the empty list (what the
enumeration task reports on failure) in a ready, modal-free state rebuilds
the empty home view, resets the status to Ready, refreshes the statusbar, and
emits nothing. -/
theorem update_containersLoaded_nil (s : Model) (e : Env)
    (hm : s.modal = none) (hr : s.ready = true) :
    Update s (.containersLoaded []) e =
      (updateStatusBar ({ s with
          homeView := some (NewHomeModel [])
          loading := false
          operationStatus := "Ready"
          containerCount := 0 }) e, []) := by
  simp only [Update, updateStage2, isQuitKey, Bool.and_false, Bool.false_eq_true, if_false,
    updateMain, containersLoadedHandler, hm, updateStatusBar_ready]
  repeat' split
  all_goals simp_all

/-- Claim C2 (amended): a failed background enumeration degrades silently —
the task reports an empty list with a nil error, processing it replaces the
home view with the empty view (the last known Session is cleared, not kept),
no error modal appears and no command (toast or otherwise) is emitted once
ready — and the refresh tick in the resulting state schedules enumeration
again, so the load is retried on the next tick. -/
theorem C2_silent_failure (s : Model) (e : Env) (err : String)
    (hm : s.modal = none) (hr : s.ready = true) (hop : s.operationInProgress = false)
    (he : e.listContainers = .error err) :
    runLoadContainers e = .containersLoaded [] ∧
      (Update s (.containersLoaded []) e).1.homeView = some (NewHomeModel []) ∧
      (Update s (.containersLoaded []) e).1.modal = none ∧
      (Update s (.containersLoaded []) e).2 = [] ∧
      Update (Update s (.containersLoaded []) e).1 .refreshTickMsg e =
        ({ (Update s (.containersLoaded []) e).1 with operationStatus := "Syncing..." },
          [Cmd.loadContainers, Cmd.refreshTick]) := by
  have h0 : runLoadContainers e = Msg.containersLoaded [] := by
    rw [runLoadContainers, he]
  have key := update_containersLoaded_nil s e hm hr
  refine ⟨h0, ?_, ?_, ?_, ?_⟩
  · rw [key, updateStatusBar_homeView]
  · rw [key, updateStatusBar_modal]
    exact hm
  · rw [key]
  · rw [key]
    simp only [Update, updateStatusBar_modal, updateStatusBar_opInProgress]
    simp [hop, hm]

/-- Witness for C2 at a concrete state and failing environment. -/
theorem C2_silent_failure_witness :
    ({ listContainers := .error "registry down" } : Env).listContainers =
        Except.error "registry down" ∧
      runLoadContainers { listContainers := .error "registry down" } = .containersLoaded [] ∧
      (Update ({ ready := true, homeView := some ⟨[⟨"x", "x"⟩], 0⟩ } : Model)
          (.containersLoaded []) { listContainers := .error "registry down" }).1.homeView =
        some (NewHomeModel []) :=
  ⟨rfl,
    (C2_silent_failure { ready := true, homeView := some ⟨[⟨"x", "x"⟩], 0⟩ }
        { listContainers := .error "registry down" } "registry down" rfl rfl rfl rfl).1,
    (C2_silent_failure { ready := true, homeView := some ⟨[⟨"x", "x"⟩], 0⟩ }
        { listContainers := .error "registry down" } "registry down" rfl rfl rfl rfl).2.1⟩

/-- Claim C3 (counterexample): the cursor-restoration clause fails when the
previously selected container's name is the empty string — the selection (a
container named "", validly selected at index 0) is present in the new list
at index 1, yet the cursor resets to the default 0 instead of pointing at
it, because the source only restores a remembered name that is non-empty. -/
theorem C3_emptyname_counterexample :
    (Update ({ ready := true, homeView := some ⟨[⟨"", ""⟩], 0⟩ } : Model)
        (.containersLoaded [⟨"a", "a"⟩, ⟨"", ""⟩]) {}).1.homeView =
      some ⟨[⟨"a", "a"⟩, ⟨"", ""⟩], 0⟩ ∧
    [⟨"a", "a"⟩, (⟨"", ""⟩ : Info)].findIdx? (fun c => c.name == "") = some 1 := by
  constructor
  · decide
  · decide

/-- Claim C3 (amended): after a list refresh from a state with a valid,
non-empty-named selection, the cursor points at the first container in the
new list bearing the previously selected name when one is present, and
otherwise resets to the valid default (0, or −1 when the new list is
empty). -/
theorem C3_cursor_restoration (s : Model) (hv : HomeModel) (cs : List Info) (e : Env)
    (hm : s.modal = none) (hhv : s.homeView = some hv)
    (hc0 : 0 ≤ hv.cursor) (hclen : hv.cursor < (hv.containers.length : Int))
    (hname : ((hv.containers.get? hv.cursor.toNat).map Info.name).getD "" ≠ "") :
    (Update s (.containersLoaded cs) e).1.homeView =
      some
        (match cs.findIdx?
            (fun c => c.name == ((hv.containers.get? hv.cursor.toNat).map Info.name).getD "") with
          | some i => (NewHomeModel cs).SetCursor i
          | none => NewHomeModel cs) := by
  have hlen : 0 < hv.containers.length := by omega
  have hb : ((((hv.containers.get? hv.cursor.toNat).map Info.name).getD "") != "") = true :=
    bne_iff_ne.mpr hname
  simp only [Update, updateStage2, isQuitKey, Bool.and_false, Bool.false_eq_true, if_false,
    updateMain, containersLoadedHandler, hhv, hm]
  rw [if_pos hlen, if_pos (⟨hc0, hclen⟩ : 0 ≤ hv.cursor ∧ hv.cursor < (hv.containers.length : Int)), if_pos hb]
  cases hfind : cs.findIdx?
      (fun c => c.name == ((hv.containers.get? hv.cursor.toNat).map Info.name).getD "") with
  | none =>
      repeat' split
      all_goals rfl
  | some i =>
      repeat' split
      all_goals rfl

/-- Witness for C3 at a concrete refresh where the selected name "x" moves
from index 0 to index 1. -/
theorem C3_cursor_restoration_witness :
    ((([⟨"x", "x"⟩, ⟨"b", "b"⟩] : List Info).get? 0).map Info.name).getD "" ≠ "" ∧
      (Update ({ ready := true, homeView := some ⟨[⟨"x", "x"⟩, ⟨"b", "b"⟩], 0⟩ } : Model)
          (.containersLoaded [⟨"a", "a"⟩, ⟨"x", "x"⟩]) {}).1.homeView =
        some (match [⟨"a", "a"⟩, (⟨"x", "x"⟩ : Info)].findIdx? (fun c => c.name == "x") with
          | some i => (NewHomeModel [⟨"a", "a"⟩, ⟨"x", "x"⟩]).SetCursor i
          | none => NewHomeModel [⟨"a", "a"⟩, ⟨"x", "x"⟩]) :=
  ⟨by decide,
    C3_cursor_restoration { ready := true, homeView := some ⟨[⟨"x", "x"⟩, ⟨"b", "b"⟩], 0⟩ }
      ⟨[⟨"x", "x"⟩, ⟨"b", "b"⟩], 0⟩ [⟨"a", "a"⟩, ⟨"x", "x"⟩] {} rfl rfl (by decide) (by decide)
      (by decide)⟩
